import Mathlib

/-!
Shallow embedding of the DIO telemetry pipeline pieces under verification:
the collector-side event aggregation route (`src/app/api/events/route.ts`),
the receive endpoint (`src/app/api/events/receive/route.ts`), the in-memory
event store (`src/lib/events-storage.ts`), and — where the agent-side Python
source is absent from the repository snapshot — models built from the spec.

Timestamps are modelled as natural numbers of milliseconds since the Unix
epoch, and JavaScript `Date` accessors are modelled in UTC.
-/

namespace DIO

/-- The four severities used throughout the system. -/
inductive Severity where
  | critical
  | high
  | medium
  | low
deriving DecidableEq, Repr

/-- The severity rank map from the aggregation route:
`const severityOrder = { critical: 4, high: 3, medium: 2, low: 1 }`. -/
def severityOrder : Severity → Nat
  | .critical => 4
  | .high => 3
  | .medium => 2
  | .low => 1

/-! ### JavaScript Date accessors (UTC)

The aggregation route reads `getFullYear`, `getMonth`, `getDate`, and
`getMinutes` off `new Date(event.timestamp)`. We model the civil-calendar
decomposition of a nonnegative epoch-millisecond count. -/

def msPerMinute : Nat := 60000

def msPerDay : Nat := 86400000

/-- Civil date (year, month 1..12, day 1..31) from a count of days since
1970-01-01, by the standard era-based Gregorian algorithm. -/
def civilFromDays (days : Nat) : Nat × Nat × Nat :=
  let z := days + 719468
  let era := z / 146097
  let doe := z % 146097
  let yoe := (doe - doe / 1460 + doe / 36524 - doe / 146096) / 365
  let y := yoe + era * 400
  let doy := doe - (365 * yoe + yoe / 4 - yoe / 100)
  let mp := (5 * doy + 2) / 153
  let d := doy - (153 * mp + 2) / 5 + 1
  let m := if mp < 10 then mp + 3 else mp - 9
  (if m ≤ 2 then y + 1 else y, m, d)

/-- JavaScript `date.getFullYear()` (UTC). -/
def getFullYear (ms : Nat) : Nat := (civilFromDays (ms / msPerDay)).1

/-- JavaScript `date.getMonth() + 1` as used by the route (month 1..12). -/
def getMonthPlusOne (ms : Nat) : Nat := (civilFromDays (ms / msPerDay)).2.1

/-- JavaScript `date.getDate()` (UTC, day of month). -/
def getDate (ms : Nat) : Nat := (civilFromDays (ms / msPerDay)).2.2

/-- JavaScript `date.getMinutes()` (UTC, minute of the hour). -/
def getMinutes (ms : Nat) : Nat := ms / msPerMinute % 60

/-- JavaScript `String(n).padStart(2, '0')` for the small numbers the route
pads (months, days, minutes). -/
def pad2 (n : Nat) : String :=
  if n < 10 then "0" ++ toString n else toString n

/-! ### The aggregation route (`aggregateEventsByMinute`) -/

/-- A database event row as consumed by `aggregateEventsByMinute`. The route
reads `timestamp`, `type`, `severity`, `agentId`/`agent_id`, and `id`; other
columns ride along unchanged inside the representative. -/
structure JsEvent where
  id : String
  type : String
  agentId : Option String
  agent_id : Option String
  severity : Severity
  timestamp : Nat
deriving DecidableEq, Repr

/-- The route's `event.agentId || event.agent_id || 'unknown'`, with
JavaScript falsiness: a missing field or an empty string falls through. -/
def effAgentId (e : JsEvent) : String :=
  match e.agentId with
  | some s =>
    if s = "" then
      match e.agent_id with
      | some t => if t = "" then "unknown" else t
      | none => "unknown"
    else s
  | none =>
    match e.agent_id with
    | some t => if t = "" then "unknown" else t
    | none => "unknown"

/-- The route's `minuteKey`:
year, padded month, padded day, padded minute-of-hour — note that the hour is
not part of the key, and `Math.floor(getMinutes() / 1) * 1` is the identity. -/
def minuteKey (ms : Nat) : String :=
  toString (getFullYear ms) ++ "-" ++ pad2 (getMonthPlusOne ms) ++ "-" ++
    pad2 (getDate ms) ++ "-" ++ pad2 (getMinutes ms)

/-- The route's `fullKey = minuteKey + "-" + type + "-" + agentId`. -/
def fullKey (e : JsEvent) : String :=
  minuteKey e.timestamp ++ "-" ++ e.type ++ "-" ++ effAgentId e

/-- One value of the route's `eventMap`:
`{ count, representative, firstSeen }`. -/
structure Bucket where
  count : Nat
  representative : JsEvent
  firstSeen : Nat
deriving DecidableEq, Repr

/-- The existing-bucket branch of the route's `events.forEach` body:
`existing.count++`, then replace the representative (and `firstSeen`) when
the incoming event has strictly higher severity rank or a date later than
the stored `firstSeen`. -/
def updateBucket (b : Bucket) (e : JsEvent) : Bucket :=
  if severityOrder e.severity > severityOrder b.representative.severity ∨
      e.timestamp > b.firstSeen then
    ⟨b.count + 1, e, e.timestamp⟩
  else
    ⟨b.count + 1, b.representative, b.firstSeen⟩

/-- One `events.forEach` step of the route, mirroring
`if (!eventMap.has(fullKey)) { set fresh } else { update existing }`: a
fresh key appends a bucket with `count = 1`; an existing key is updated in
place via `updateBucket`. The association list preserves JavaScript `Map`
insertion order. -/
def ingest (m : List (String × Bucket)) (e : JsEvent) : List (String × Bucket) :=
  if m.lookup (fullKey e) = none then
    m ++ [(fullKey e, ⟨1, e, e.timestamp⟩)]
  else
    m.map fun p => if p.1 = fullKey e then (p.1, updateBucket p.2 e) else p

/-- The aggregated record the route emits per bucket: the spread of the
representative (so the output's `timestamp`, `severity`, … are the
representative's) plus the bucket count. -/
structure AggEvent where
  representative : JsEvent
  count : Nat
deriving DecidableEq, Repr

/-- The route's output ordering: `sort((a, b) => new Date(b.timestamp) -
new Date(a.timestamp))`, i.e. a stable sort descending by timestamp. -/
def sortByTimestampDesc (l : List AggEvent) : List AggEvent :=
  l.insertionSort fun a b => b.representative.timestamp ≤ a.representative.timestamp

/-- The full `aggregateEventsByMinute` pipeline: fold the events into the
bucket map, emit one aggregated record per bucket, sort most recent first. -/
def aggregateEventsByMinute (events : List JsEvent) : List AggEvent :=
  sortByTimestampDesc ((events.foldl ingest []).map fun p => ⟨p.2.representative, p.2.count⟩)

/-! ### The in-memory event store (`src/lib/events-storage.ts`) -/

/-- An event as stored by the development in-memory store and built by the
receive endpoint's `newEvent`; the free-form `details` blob is omitted. -/
structure StoredEvent where
  id : String
  name : String
  type : String
  severity : Severity
  description : String
  timestamp : Nat
  agent_id : Option String
  status : String
deriving DecidableEq, Repr

/-- The store's `addEvent`: push, then keep only the last 100 events
(`developmentEvents.slice(-100)` when the length exceeds 100). -/
def addEvent (store : List StoredEvent) (e : StoredEvent) : List StoredEvent :=
  if 100 < (store ++ [e]).length then
    (store ++ [e]).drop ((store ++ [e]).length - 100)
  else
    store ++ [e]

/-- The store's `getEvents`: sort by timestamp, most recent first
(`sort((a, b) => new Date(b.timestamp) - new Date(a.timestamp))`, a stable
descending sort). -/
def getEvents (store : List StoredEvent) : List StoredEvent :=
  store.insertionSort fun a b => b.timestamp ≤ a.timestamp

/-! ### The receive endpoint (`src/app/api/events/receive/route.ts`) -/

/-- The JSON body of a POST to `/api/events/receive`, with the fields the
handler reads; `none` models an absent field. -/
structure ReceivePayload where
  id : Option String
  type : Option String
  name : Option String
  severity : Option Severity
  description : Option String
  timestamp : Option Nat
  agent_id : Option String
  status : Option String
deriving DecidableEq, Repr

/-- JavaScript falsiness for an optional string: absent or empty. -/
def falsyStr : Option String → Bool
  | none => true
  | some s => s = ""

/-- JavaScript `a || d` for an optional string with a default. -/
def orDefault (a : Option String) (d : String) : String :=
  match a with
  | none => d
  | some s => if s = "" then d else s

/-- The receive endpoint's POST handler. It validates
`if (!eventData.id || !eventData.type || !eventData.name)` and answers 400
without touching the store; otherwise it builds `newEvent` with the handler's
defaults, stores it via `addEvent`, and answers 200. `now` stands for the
clock read `new Date()` used for the timestamp default. The handler is a
total function: no input crashes it. -/
def receivePost (now : Nat) (store : List StoredEvent) (p : ReceivePayload) :
    Nat × List StoredEvent :=
  if falsyStr p.id || falsyStr p.type || falsyStr p.name then
    (400, store)
  else
    let newEvent : StoredEvent :=
      { id := orDefault p.id ""
        name := orDefault p.name "Unknown Event"
        type := orDefault p.type "system"
        severity := p.severity.getD .medium
        description := (p.description.map fun d => if d = "" then "Event received from nerve center" else d).getD "Event received from nerve center"
        timestamp := p.timestamp.getD now
        agent_id := p.agent_id
        status := (p.status.map fun s => if s = "" then "active" else s).getD "active" }
    (200, addEvent store newEvent)

/-! ### Agent-side models

The agent's Python source (metric sampler, anomaly detector, reporter and
monitoring loop) is not part of the repository snapshot; only design
documents describe it. The definitions below are therefore modelled from the
spec, as their doc comments state. -/

/-- One host-metrics snapshot as seen by the detector; only the field the
sustained-CPU rule reads is kept. -/
structure Sample where
  cpuPercent : ℚ
deriving DecidableEq, Repr

/-- An anomaly kind. -/
inductive AnomalyKind where
  | sustainedHighCPU
  | cpuSpike
  | sustainedHighMemory
  | networkAnomaly
  | processAnomaly
  | highDiskUsage
  | highProcessCount
deriving DecidableEq, Repr

/-- A detected anomaly record. -/
structure Anomaly where
  kind : AnomalyKind
  severity : Severity
deriving DecidableEq, Repr

/-- Modelled from the spec: severity of a sustained-high-CPU anomaly, scaled
by where the mean of the qualifying samples sits — medium at 80–90%, high at
90–95%, critical at ≥ 95%. -/
def cpuSeverity (mean : ℚ) : Severity :=
  if 95 ≤ mean then .critical else if 90 ≤ mean then .high else .medium

/-- Modelled from the spec: the AnomalyDetector's SustainedHighCPU rule
(the agent's Python source is absent from the snapshot). Count the samples in
the ring with `cpuPercent > 80` (threshold default 80); if at least 10 of the
15 ring samples qualify, raise a SustainedHighCPU anomaly whose severity is
scaled by the mean of the qualifying samples; otherwise raise nothing. The
per-kind cooldown that rate-limits repeat alerts is outside this rule. -/
def sustainedHighCPU (ring : List Sample) : Option Anomaly :=
  if 10 ≤ (ring.filter fun s => 80 < s.cpuPercent).length then
    some ⟨.sustainedHighCPU,
      cpuSeverity (((ring.filter fun s => 80 < s.cpuPercent).map Sample.cpuPercent).sum /
        ((ring.filter fun s => 80 < s.cpuPercent).length : ℚ))⟩
  else
    none

/-- Modelled from the spec: the IncidentReporter's `report` retry loop (the
agent's Python source is absent from the snapshot). Attempts are numbered
from 0 as in `for attempt in range(max_retries)`; `transport` says whether a
given attempt succeeds; a failed attempt that is not the last sleeps
`base * (attempt + 1)` (linear backoff) before the next one. Returns whether
the call succeeded, how many attempts were made, and the list of backoff
delays slept. -/
def attemptLoop (transport : Nat → Bool) (base : Nat) :
    Nat → Nat → Bool × Nat × List Nat
  | _, 0 => (false, 0, [])
  | attempt, remaining + 1 =>
    if transport attempt then (true, 1, [])
    else if remaining = 0 then (false, 1, [])
    else
      let r := attemptLoop transport base (attempt + 1) remaining
      (r.1, r.2.1 + 1, base * (attempt + 1) :: r.2.2)

/-- Modelled from the spec: `report` sends one incident report with up to 3
attempts and linear backoff, returning an error (`false`) to the caller once
the retry budget is exhausted. -/
def report (transport : Nat → Bool) (base : Nat) : Bool × Nat × List Nat :=
  attemptLoop transport base 0 3

/-- An observable action of one monitoring-loop iteration. -/
inductive AgentAction where
  | register
  | reportAction
deriving DecidableEq, Repr

/-- Modelled from the spec: one iteration of the AgentRuntime monitoring
loop (the agent's Python source is absent from the snapshot). The runtime
tracks consecutive `report` failures; once the counter has reached the
threshold it invokes `registerAgent` (resetting the counter) before the
iteration's `report` call; a successful report resets the counter, a failed
one increments it. Returns the new counter and the iteration's actions in
order. -/
def loopIter (threshold failures : Nat) (reportOk : Bool) : Nat × List AgentAction :=
  if threshold ≤ failures then
    (if reportOk then 0 else 1, [.register, .reportAction])
  else
    (if reportOk then 0 else failures + 1, [.reportAction])

/-- Modelled from the spec: run the monitoring loop over a sequence of
report outcomes, collecting each iteration's actions. -/
def runLoop (threshold failures : Nat) : List Bool → Nat × List (List AgentAction)
  | [] => (failures, [])
  | ok :: rest =>
    let step := loopIter threshold failures ok
    let next := runLoop threshold step.1 rest
    (next.1, step.2 :: next.2)

/-- A concrete full ring: 10 samples at 85% CPU followed by 5 at 50%. -/
def sampleRing15 : List Sample :=
  List.replicate 10 ⟨85⟩ ++ List.replicate 5 ⟨50⟩

/-- Two reports of the same kind from the same agent within one absolute
minute of 2024-01-01 UTC. -/
def c3Events : List JsEvent :=
  [⟨"w1", "cpu_spike", some "a1", none, .medium, 1704103205000⟩,
   ⟨"w2", "cpu_spike", some "a1", none, .low, 1704103220000⟩]

/-- Two reports of the same kind from the same agent, exactly one hour
apart: 2024-01-01 10:00:05 UTC and 2024-01-01 11:00:05 UTC, which lie in
different 1-minute intervals of absolute time. -/
def c2Events : List JsEvent :=
  [⟨"e1", "cpu_spike", some "a1", none, .medium, 1704103205000⟩,
   ⟨"e2", "cpu_spike", some "a1", none, .medium, 1704106805000⟩]

/-- The C1 scenario: medium at t1 = 10:00:20, then critical at
t2 = 10:00:05 < t1, then high at t3 = 10:00:50 > t1, all in the same
minute of 2024-01-01 UTC. -/
def c1Events : List JsEvent :=
  [⟨"e1", "cpu_spike", some "a1", none, .medium, 1704103220000⟩,
   ⟨"e2", "cpu_spike", some "a1", none, .critical, 1704103205000⟩,
   ⟨"e3", "cpu_spike", some "a1", none, .high, 1704103250000⟩]

/-- The C5 scenario: three NetworkAnomaly reports from agent a1 at
10:00:05, 10:00:20 and 10:00:50 UTC of 2024-01-01, all in one 1-minute
bucket. -/
def c5Events : List JsEvent :=
  [⟨"n1", "NetworkAnomaly", some "a1", none, .medium, 1704103205000⟩,
   ⟨"n2", "NetworkAnomaly", some "a1", none, .medium, 1704103220000⟩,
   ⟨"n3", "NetworkAnomaly", some "a1", none, .medium, 1704103250000⟩]

instance : IsTotal StoredEvent fun a b => b.timestamp ≤ a.timestamp :=
  ⟨fun a b => Nat.le_total b.timestamp a.timestamp⟩

instance : IsTrans StoredEvent fun a b => b.timestamp ≤ a.timestamp :=
  ⟨fun _ _ _ h1 h2 => le_trans h2 h1⟩

/-! ## Claims -/

/-- C6: the severity ranking used by the aggregator's tie-break maps
critical to 4, high to 3, medium to 2, low to 1, and induces a strict total
order critical > high > medium > low: distinct severities never compare
equal, every pair is comparable, and the order is transitive. -/
theorem severityOrder_strict_total_order :
    severityOrder .critical = 4 ∧ severityOrder .high = 3 ∧
    severityOrder .medium = 2 ∧ severityOrder .low = 1 ∧
    severityOrder .low < severityOrder .medium ∧
    severityOrder .medium < severityOrder .high ∧
    severityOrder .high < severityOrder .critical ∧
    (∀ a b : Severity, a ≠ b → severityOrder a ≠ severityOrder b) ∧
    (∀ a b : Severity, a ≠ b →
      severityOrder a < severityOrder b ∨ severityOrder b < severityOrder a) ∧
    (∀ a b c : Severity, severityOrder a < severityOrder b →
      severityOrder b < severityOrder c → severityOrder a < severityOrder c) := by
  refine ⟨rfl, rfl, rfl, rfl, by decide, by decide, by decide, ?_, ?_, ?_⟩
  · intro a b
    cases a <;> cases b <;> decide
  · intro a b
    cases a <;> cases b <;> decide
  · intro a b c
    cases a <;> cases b <;> cases c <;> decide

/-- C7: a report missing any of the required fields id, type, name is
rejected by the receive endpoint with HTTP 400 (a client error), and the
stored event state is left unchanged; the handler, being a total function,
does not crash. -/
theorem receivePost_rejects_malformed (now : Nat) (store : List StoredEvent)
    (p : ReceivePayload) (h : p.id = none ∨ p.type = none ∨ p.name = none) :
    (receivePost now store p).1 = 400 ∧ (receivePost now store p).2 = store := by
  rcases h with h | h | h <;> simp [receivePost, falsyStr, h]

/-- Witness for C7 at a concrete malformed payload (missing id). -/
theorem receivePost_rejects_malformed_witness :
    (receivePost 0 [] ⟨none, some "system", some "ev", none, none, none, none, none⟩).1 = 400 ∧
    (receivePost 0 [] ⟨none, some "system", some "ev", none, none, none, none, none⟩).2 = [] :=
  receivePost_rejects_malformed 0 [] _ (Or.inl rfl)

/-- C4: on a full ring of 15 samples, if at least 10 samples have
cpuPercent strictly above 80 the sustained-high-CPU rule fires with kind
SustainedHighCPU, and if at most 9 do, it returns no anomaly — the boundary
is exactly 10 of 15. -/
theorem sustainedHighCPU_boundary (ring : List Sample) (h15 : ring.length = 15) :
    (10 ≤ (ring.filter fun s => 80 < s.cpuPercent).length →
      ∃ a, sustainedHighCPU ring = some a ∧ a.kind = .sustainedHighCPU) ∧
    ((ring.filter fun s => 80 < s.cpuPercent).length ≤ 9 →
      sustainedHighCPU ring = none) := by
  constructor
  · intro h
    unfold sustainedHighCPU
    rw [if_pos h]
    exact ⟨_, rfl, rfl⟩
  · intro h
    unfold sustainedHighCPU
    rw [if_neg (by omega)]

/-- Witness for C4 on a concrete ring: 10 of 15 samples at 85% fire the
rule. -/
theorem sustainedHighCPU_boundary_witness :
    sampleRing15.length = 15 ∧
    ((10 ≤ (sampleRing15.filter fun s => 80 < s.cpuPercent).length →
      ∃ a, sustainedHighCPU sampleRing15 = some a ∧ a.kind = .sustainedHighCPU) ∧
    ((sampleRing15.filter fun s => 80 < s.cpuPercent).length ≤ 9 →
      sustainedHighCPU sampleRing15 = none)) :=
  ⟨by decide, sustainedHighCPU_boundary sampleRing15 (by decide)⟩

/-- C8: against a transport failing on every attempt, `report` makes
exactly 3 attempts with linear backoff delays base·1 and base·2 between
them, then returns an error to the caller; being a total function it does
not hang. -/
theorem report_retry_budget (transport : Nat → Bool) (base : Nat)
    (h : ∀ n, transport n = false) :
    report transport base = (false, 3, [base * 1, base * 2]) := by
  simp [report, attemptLoop, h]

/-- Witness for C8 with a concrete always-failing transport and base delay
100. -/
theorem report_retry_budget_witness :
    report (fun _ => false) 100 = (false, 3, [100 * 1, 100 * 2]) :=
  report_retry_budget (fun _ => false) 100 (fun _ => rfl)

/-- C9: once the consecutive-failure counter (reset to zero on every
successful report) has accumulated 5 consecutive report failures, the next
loop iteration invokes registerAgent before any further report call: from a
freshly reset counter, five failing iterations each perform only a report,
and the following iteration performs register then report. -/
theorem runLoop_reregisters_after_five_failures (pre : List Bool) (b : Bool)
    (h : (runLoop 5 0 pre).1 = 0) :
    (runLoop 5 (runLoop 5 0 pre).1 (List.replicate 5 false ++ [b])).2 =
      List.replicate 5 [AgentAction.reportAction] ++
        [[AgentAction.register, AgentAction.reportAction]] ∧
    (∀ f : Nat, (loopIter 5 f true).1 = 0) := by
  rw [h]
  constructor
  · cases b <;> rfl
  · intro f
    unfold loopIter
    split <;> rfl

/-- Witness for C9 with the empty prefix and a failing sixth report. -/
theorem runLoop_reregisters_after_five_failures_witness :
    (runLoop 5 0 []).1 = 0 ∧
    ((runLoop 5 (runLoop 5 0 []).1 (List.replicate 5 false ++ [false])).2 =
      List.replicate 5 [AgentAction.reportAction] ++
        [[AgentAction.register, AgentAction.reportAction]] ∧
    (∀ f : Nat, (loopIter 5 f true).1 = 0)) :=
  ⟨rfl, runLoop_reregisters_after_five_failures [] false rfl⟩

/-! ### Aggregation lemmas -/

/-- Two timestamps in the same absolute minute produce the same
`minuteKey`. -/
theorem minuteKey_congr (t1 t2 : Nat) (h : t1 / msPerMinute = t2 / msPerMinute) :
    minuteKey t1 = minuteKey t2 := by
  have hday : t1 / msPerDay = t2 / msPerDay := by
    have h1440 : msPerDay = msPerMinute * 1440 := by norm_num [msPerDay, msPerMinute]
    rw [h1440, ← Nat.div_div_eq_div_mul, ← Nat.div_div_eq_div_mul, h]
  unfold minuteKey getFullYear getMonthPlusOne getDate getMinutes
  rw [hday, h]

/-- Ingesting into an empty map creates the event's bucket with count 1. -/
theorem ingest_nil (e : JsEvent) : ingest [] e = [(fullKey e, ⟨1, e, e.timestamp⟩)] := rfl

/-- Ingesting into a single-bucket map whose key matches updates that
bucket in place. -/
theorem ingest_hit (k : String) (b : Bucket) (e : JsEvent) (hk : fullKey e = k) :
    ingest [(k, b)] e = [(k, updateBucket b e)] := by
  subst hk
  have h1 : List.lookup (fullKey e) [(fullKey e, b)] = some b := List.lookup_cons_self
  simp [ingest, h1]

/-- An update always increments the bucket count by one. -/
theorem updateBucket_count (b : Bucket) (e : JsEvent) :
    (updateBucket b e).count = b.count + 1 := by
  unfold updateBucket
  split <;> rfl

/-- Bucket keys agree whenever type, resolved agent id, and the absolute
minute of the timestamp agree. -/
theorem fullKey_congr (e1 e2 : JsEvent) (ht : e1.type = e2.type)
    (ha : effAgentId e1 = effAgentId e2)
    (hm : e1.timestamp / msPerMinute = e2.timestamp / msPerMinute) :
    fullKey e1 = fullKey e2 := by
  unfold fullKey
  rw [ht, ha, minuteKey_congr e1.timestamp e2.timestamp hm]

/-- Folding a run of same-key events over a single-bucket map keeps a
single bucket and adds the run's length to its count. -/
theorem foldl_ingest_single (es : List JsEvent) (k : String) :
    ∀ b : Bucket, (∀ e ∈ es, fullKey e = k) →
      ∃ b' : Bucket, es.foldl ingest [(k, b)] = [(k, b')] ∧
        b'.count = b.count + es.length := by
  induction es with
  | nil =>
    intro b _
    exact ⟨b, rfl, by simp⟩
  | cons e es ih =>
    intro b h
    have hk : fullKey e = k := h e (by simp)
    rw [List.foldl_cons, ingest_hit k b e hk]
    obtain ⟨b', hb', hc⟩ := ih (updateBucket b e) (fun x hx => h x (by simp [hx]))
    refine ⟨b', hb', ?_⟩
    rw [hc, updateBucket_count]
    simp [List.length_cons]
    omega

/-- C3: ingesting N ≥ 1 reports that share agent id, kind, and absolute
minute yields exactly one aggregated event, whose count is N — the number
of raw reports merged — rather than N separate events. -/
theorem aggregate_same_bucket_single_event (es : List JsEvent) (a k : String) (w : Nat)
    (hne : es ≠ [])
    (h : ∀ e ∈ es, effAgentId e = a ∧ e.type = k ∧ e.timestamp / msPerMinute = w) :
    (aggregateEventsByMinute es).map AggEvent.count = [es.length] := by
  cases es with
  | nil => exact absurd rfl hne
  | cons e0 rest =>
    have hkeys : ∀ e ∈ rest, fullKey e = fullKey e0 := by
      intro e he
      obtain ⟨ha, ht, hw⟩ := h e (by simp [he])
      obtain ⟨ha0, ht0, hw0⟩ := h e0 (by simp)
      exact fullKey_congr e e0 (by rw [ht, ht0]) (by rw [ha, ha0]) (by rw [hw, hw0])
    obtain ⟨b', hb', hc⟩ := foldl_ingest_single rest (fullKey e0) ⟨1, e0, e0.timestamp⟩ hkeys
    have hfold : (e0 :: rest).foldl ingest [] = [(fullKey e0, b')] := by
      rw [List.foldl_cons, ingest_nil, hb']
    unfold aggregateEventsByMinute
    rw [hfold]
    simp [sortByTimestampDesc, List.insertionSort, List.orderedInsert, hc]
    omega

/-- Witness for C3 on two concrete same-minute reports. -/
theorem aggregate_same_bucket_single_event_witness :
    c3Events ≠ [] ∧
    (∀ e ∈ c3Events, effAgentId e = "a1" ∧ e.type = "cpu_spike" ∧
      e.timestamp / msPerMinute = 28401720) ∧
    (aggregateEventsByMinute c3Events).map AggEvent.count = [c3Events.length] :=
  ⟨by decide, by decide,
    aggregate_same_bucket_single_event c3Events "a1" "cpu_spike" 28401720
      (by decide) (by decide)⟩

/-- C2: the route merges the two reports of `c2Events` into a single
bucket of count 2 even though their timestamps lie in different 1-minute
intervals of absolute time — the bucket key is built from year, month,
day, and minute-of-hour, omitting the hour. -/
theorem aggregate_merges_events_one_hour_apart :
    (aggregateEventsByMinute c2Events).map AggEvent.count = [2] ∧
    1704103205000 / msPerMinute ≠ 1704106805000 / msPerMinute := by
  constructor
  · decide
  · decide

/-- Counterexample to C1: after ingesting medium@t1, critical@t2 < t1 and
high@t3 > t1 into the same bucket, the route's representative is the high
report, not the critical one — a merely newer event replaces a more severe
representative. -/
theorem aggregate_representative_is_high_not_critical :
    (aggregateEventsByMinute c1Events).map (fun x => x.representative.severity) =
      [Severity.high] ∧
    ¬ (aggregateEventsByMinute c1Events).map (fun x => x.representative.severity) =
      [Severity.critical] := by
  constructor
  · decide
  · decide

/-- C1 amended: the route replaces the representative when the incoming
report has strictly higher severity rank OR a date later than the stored
`firstSeen` (which is reset on every replacement), regardless of severity;
hence for {medium@t1, critical@t2<t1, high@t3>t1} in one bucket the final
representative is the high report. -/
theorem aggregate_recency_beats_severity
    (id1 id2 id3 ty : String) (ag ag2 : Option String) (t1 t2 t3 : Nat)
    (h21 : t2 < t1) (h13 : t1 < t3)
    (hm2 : t2 / msPerMinute = t1 / msPerMinute)
    (hm3 : t3 / msPerMinute = t1 / msPerMinute) :
    aggregateEventsByMinute
        [⟨id1, ty, ag, ag2, .medium, t1⟩,
         ⟨id2, ty, ag, ag2, .critical, t2⟩,
         ⟨id3, ty, ag, ag2, .high, t3⟩] =
      [⟨⟨id3, ty, ag, ag2, .high, t3⟩, 3⟩] := by
  have hk2 : fullKey ⟨id2, ty, ag, ag2, .critical, t2⟩ =
      fullKey ⟨id1, ty, ag, ag2, .medium, t1⟩ :=
    fullKey_congr _ _ rfl rfl hm2
  have hk3 : fullKey ⟨id3, ty, ag, ag2, .high, t3⟩ =
      fullKey ⟨id1, ty, ag, ag2, .medium, t1⟩ :=
    fullKey_congr _ _ rfl rfl hm3
  have ht32 : t2 < t3 := lt_trans h21 h13
  unfold aggregateEventsByMinute
  rw [List.foldl_cons, List.foldl_cons, List.foldl_cons, List.foldl_nil, ingest_nil,
    ingest_hit _ _ _ hk2, ingest_hit _ _ _ hk3]
  simp [updateBucket, severityOrder, ht32, sortByTimestampDesc, List.insertionSort,
    List.orderedInsert]

/-- Witness for the amended C1 on concrete reports in the same minute. -/
theorem aggregate_recency_beats_severity_witness :
    (1704103205000 : Nat) < 1704103220000 ∧ (1704103220000 : Nat) < 1704103250000 ∧
    1704103205000 / msPerMinute = 1704103220000 / msPerMinute ∧
    1704103250000 / msPerMinute = 1704103220000 / msPerMinute ∧
    aggregateEventsByMinute
        [⟨"x1", "cpu_spike", some "a1", none, .medium, 1704103220000⟩,
         ⟨"x2", "cpu_spike", some "a1", none, .critical, 1704103205000⟩,
         ⟨"x3", "cpu_spike", some "a1", none, .high, 1704103250000⟩] =
      [⟨⟨"x3", "cpu_spike", some "a1", none, .high, 1704103250000⟩, 3⟩] :=
  ⟨by decide, by decide, by decide, by decide,
    aggregate_recency_beats_severity "x1" "x2" "x3" "cpu_spike" (some "a1") none
      1704103220000 1704103205000 1704103250000
      (by decide) (by decide) (by decide) (by decide)⟩

/-- Counterexample to C5: after the three reports, the bucket's
`firstSeen` holds 10:00:50 — the route overwrites `firstSeen` with the
incoming date on every representative replacement — not the earliest
timestamp 10:00:05; no `lastSeen` field is computed at all. -/
theorem aggregate_firstSeen_is_latest_timestamp :
    ((c5Events.foldl ingest []).map fun p => p.2.firstSeen) = [1704103250000] ∧
    (1704103250000 : Nat) ≠ 1704103205000 := by
  constructor
  · decide
  · decide

/-- C5 amended: the three NetworkAnomaly reports produce exactly one
aggregated event with count 3 whose representative (and output timestamp)
is the 10:00:50 report; the bucket's internal `firstSeen` ends at 10:00:50
and no `lastSeen` is produced. -/
theorem aggregate_networkAnomaly_scenario :
    aggregateEventsByMinute c5Events =
      [⟨⟨"n3", "NetworkAnomaly", some "a1", none, .medium, 1704103250000⟩, 3⟩] := by
  decide

/-! ### Event-store lemmas -/

/-- One `addEvent` step always keeps the suffix of the last 100 pushed
events. -/
theorem addEvent_eq_drop (s : List StoredEvent) (e : StoredEvent) :
    addEvent s e = (s ++ [e]).drop ((s ++ [e]).length - 100) := by
  unfold addEvent
  split
  · rfl
  · next h =>
    rw [Nat.sub_eq_zero_of_le (by omega), List.drop_zero]

/-- Folding any sequence of `addEvent` calls from the empty store leaves
exactly the last 100 events added. -/
theorem foldl_addEvent_eq (es : List StoredEvent) :
    es.foldl addEvent [] = es.drop (es.length - 100) := by
  induction es using List.reverseRecOn with
  | nil => rfl
  | append_singleton l e ih =>
    have hd : l.length - 100 ≤ l.length := Nat.sub_le _ _
    rw [List.foldl_append, List.foldl_cons, List.foldl_nil, ih, addEvent_eq_drop,
      ← List.drop_append_of_le_length hd, List.drop_drop]
    have hlen : l.length - 100 + (((l ++ [e]).drop (l.length - 100)).length - 100) =
        (l ++ [e]).length - 100 := by
      simp only [List.length_append, List.length_drop, List.length_cons, List.length_nil]
      omega
    rw [hlen]

/-- C10: after any sequence of `addEvent` calls the store holds at most
100 events — exactly the `min N 100` most recently added ones, i.e. all of
them while N ≤ 100 and the last 100 once N exceeds 100 — and `getEvents`
returns a permutation of the store sorted by timestamp, most recent
first. -/
theorem eventsStorage_bounded_and_sorted (es : List StoredEvent) :
    (es.foldl addEvent []).length ≤ 100 ∧
    es.foldl addEvent [] = es.drop (es.length - 100) ∧
    (getEvents (es.foldl addEvent [])).Perm (es.foldl addEvent []) ∧
    List.Sorted (fun a b => b.timestamp ≤ a.timestamp)
      (getEvents (es.foldl addEvent [])) := by
  refine ⟨?_, foldl_addEvent_eq es, ?_, ?_⟩
  · rw [foldl_addEvent_eq es]
    simp only [List.length_drop]
    omega
  · exact List.perm_insertionSort _ _
  · exact List.sorted_insertionSort _ _

end DIO
